import Mathlib

/-!
# sqtracker client: upload form and announcement edit view

A shallow embedding of `client/pages/upload.js` and
`client/pages/announcements/[slug]/edit.js`.

React state is passed explicitly; every call on an external collaborator
(`fetch`, `addNotification`, `router.push`, `setLoading`, `console.error`,
`FileReader.readAsDataURL`) is appended to a log, oldest first.  An `async`
handler is split at its first `await`: the part that runs inside the submit
event, and the part that runs once the network call has settled.
-/

namespace SqTracker

/-! ## Values shared by both pages -/

/-- The `publicRuntimeConfig` / `serverRuntimeConfig` entries the two pages read. -/
structure Config where
  SQ_BASE_URL : String
  SQ_API_URL : String
  SQ_JWT_SECRET : String
  deriving DecidableEq, Repr

/-- Template-literal rendering of a value that is a string or `undefined`. -/
def render : Option String → String
  | some s => s
  | none => "undefined"

/-- JavaScript truthiness of a value that is a string or `null`/`undefined`. -/
def truthy : Option String → Bool
  | some s => s != ""
  | none => false

/-- A `FormData` object: `form.get(name)` is a string, or `null` for a missing field. -/
abbrev FormData := String → Option String

/-- The object handed to `JSON.stringify` by `handleUpload` (upload.js, 120-128). -/
structure UploadBody where
  name : Option String
  description : Option String
  type : Option String
  source : Option String
  anonymous : Bool
  torrent : Option String
  tags : Option String
  deriving DecidableEq, Repr

/-- The object handed to `JSON.stringify` by `handleCreate` (edit.js, 39-43). -/
structure EditBody where
  title : Option String
  body : Option String
  pinned : Bool
  deriving DecidableEq, Repr

/-- Request payloads of the two submissions; `none` for the body-less `GET`. -/
inductive Payload where
  | upload (b : UploadBody)
  | edit (b : EditBody)
  | none
  deriving DecidableEq, Repr

/-- The arguments of one `fetch` call. -/
structure Request where
  url : String
  method : String
  contentType : String
  authorization : String
  body : Payload
  deriving DecidableEq, Repr

/-- Calls on external collaborators, as they appear in the log. -/
inductive Effect where
  | preventDefault
  | setLoading (busy : Bool)
  | fetch (req : Request)
  | addNotification (kind : String) (message : String)
  | routerPush (path : String)
  | consoleError (message : String)
  | consoleLog (message : String)
  | readAsDataURL (fileName : String)
  deriving DecidableEq, Repr

/-- How one awaited network call settles.  `rejected m`: the `fetch` promise
rejects with an error whose `message` is `m` (no response at all).
`response status text`: it resolves with that status, and `text()` on the
response resolves with the body (`ok`) or rejects with an error message. -/
inductive FetchOutcome where
  | rejected (message : String)
  | response (status : Nat) (text : Except String String)

/-- The notifications in a log, as `(kind, message)` pairs, oldest first. -/
def notifications (log : List Effect) : List (String × String) :=
  log.filterMap fun e =>
    match e with
    | .addNotification k m => some (k, m)
    | _ => none

/-- The navigation targets in a log, oldest first. -/
def navigations (log : List Effect) : List String :=
  log.filterMap fun e =>
    match e with
    | .routerPush p => some p
    | _ => none

/-- The values written to the busy flag in a log, oldest first. -/
def loadingWrites (log : List Effect) : List Bool :=
  log.filterMap fun e =>
    match e with
    | .setLoading b => some b
    | _ => none

/-- The `fetch` calls in a log that go to `url`. -/
def fetchesTo (url : String) (log : List Effect) : List Request :=
  log.filterMap fun e =>
    match e with
    | .fetch r => if r.url = url then some r else none
    | _ => none

/-! ## upload.js -/

/-- The value kept in `torrentFile` (upload.js, 83): `name` and the second
piece of `reader.result.split('base64,')`, which is `undefined` when the
separator does not occur. -/
structure TorrentFile where
  name : String
  b64 : Option String
  deriving DecidableEq, Repr

/-- A file dropped on (or picked through) the dropzone: its name and its MIME
type. -/
structure DroppedFile where
  name : String
  type : String := "application/x-bittorrent"
  deriving DecidableEq, Repr

/-- `SQ_TORRENT_CATEGORIES`: the entries of the object in `Object.keys` order. -/
abbrev Catalog := List (String × List String)

/-- `Object.keys(SQ_TORRENT_CATEGORIES)`. -/
def Catalog.keys (C : Catalog) : List String := C.map Prod.fst

/-- Property access `SQ_TORRENT_CATEGORIES[k]`; `none` is `undefined`. -/
def Catalog.get (C : Catalog) (k : String) : Option (List String) := C.lookup k

/-- State of the `Upload` component together with the busy flag of
`LoadingContext` and the log of external calls. -/
structure UploadState where
  torrentFile : Option TorrentFile
  dropError : String
  category : String
  sources : Option (List String)
  loading : Bool
  log : List Effect
  deriving DecidableEq, Repr

/-- Append one external call to the log. -/
def UploadState.emit (st : UploadState) (e : Effect) : UploadState :=
  { st with log := st.log ++ [e] }

/-- The call `setLoading(b)`: writes the busy flag. -/
def UploadState.setLoading (st : UploadState) (b : Bool) : UploadState :=
  { st with loading := b, log := st.log ++ [.setLoading b] }

/-- Message of the `TypeError` raised by `torrentFile.b64` when `torrentFile`
is `undefined`.  The wording is the engine's own; this is the text of V8
(Chrome, Node), in which the property name stands between two single quotes
(code point 39). -/
def undefinedReadMessage : String :=
  "Cannot read properties of undefined (reading " ++ String.singleton (Char.ofNat 39) ++
    "b64" ++ String.singleton (Char.ofNat 39) ++ ")"

/-- The `catch` block of `handleUpload` (upload.js, 140-143). -/
def handleUploadCatch (message : String) (st : UploadState) : UploadState :=
  (st.emit (.addNotification "error" ("Could not upload file: " ++ message))).emit
    (.consoleError message)

/-- The request built by `handleUpload` (upload.js, 114-129). -/
def uploadRequest (cfg : Config) (token : Option String) (form : FormData)
    (file : TorrentFile) : Request :=
  { url := cfg.SQ_API_URL ++ "/torrent/upload"
    method := "POST"
    contentType := "application/json"
    authorization := "Bearer " ++ render token
    body := .upload
      { name := form "name"
        description := form "description"
        type := form "category"
        source := form "source"
        anonymous := truthy (form "anonymous")
        torrent := file.b64
        tags := form "tags" } }

/-- The part of `handleUpload` that runs inside the submit event
(upload.js, 109-129): up to the `await` on `fetch`.  The flag tells whether a
network call is now in flight.  With `torrentFile` undefined the argument of
`fetch` raises before the call is made, and the handler runs to its end. -/
def handleUploadDispatch (cfg : Config) (token : Option String) (form : FormData)
    (st : UploadState) : UploadState × Bool :=
  let st1 := (st.emit .preventDefault).setLoading true
  match st.torrentFile with
  | none => ((handleUploadCatch undefinedReadMessage st1).setLoading false, false)
  | some file => (st1.emit (.fetch (uploadRequest cfg token form file)), true)

/-- The part of `handleUpload` that runs once the awaited `fetch` has settled
(upload.js, 131-145). -/
def handleUploadSettle (net : FetchOutcome) (st : UploadState) : UploadState :=
  let st1 :=
    match net with
    | .rejected message => handleUploadCatch message st
    | .response status text =>
      if status ≠ 200 then
        match text with
        | .ok reason => handleUploadCatch reason st
        | .error message => handleUploadCatch message st
      else
        let st2 := st.emit (.addNotification "success" "Torrent uploaded successfully")
        match text with
        | .ok infoHash => st2.emit (.routerPush ("/torrent/" ++ infoHash))
        | .error message => handleUploadCatch message st2
  st1.setLoading false

/-- One whole run of `handleUpload` (upload.js, 108-146) with no other event
in between. -/
def handleUpload (cfg : Config) (token : Option String) (form : FormData)
    (net : FetchOutcome) (st : UploadState) : UploadState :=
  let r := handleUploadDispatch cfg token form st
  if r.2 then handleUploadSettle net r.1 else r.1

/-- The drop handler `onDrop` (upload.js, 73-100).  `const [file] = acceptedFiles`
takes the first element, `undefined` for an empty list; a `File` object is
truthy.  On a list of `File` objects nothing in the `try` block raises, so the
`catch` block (lines 97-99) is never entered. -/
def onDrop (acceptedFiles : List DroppedFile) (st : UploadState) : UploadState :=
  match acceptedFiles.head? with
  | some file => { st.emit (.readAsDataURL file.name) with dropError := "" }
  | none => { st with dropError := "Must be a .torrent file" }

/-- The `accept` option of the `useDropzone` call (upload.js, 104) as the
external `react-dropzone` package applies it: a file passes when its MIME
type is `application/x-bittorrent` or its name ends in `.torrent`, case
ignored. -/
def dropzoneAccepts (file : DroppedFile) : Bool :=
  file.type.toList.map Char.toLower == "application/x-bittorrent".toList ||
    ".torrent".toList.isSuffixOf (file.name.toList.map Char.toLower)

/-- The list that the external `react-dropzone` package hands to its `onDrop`
option for a drop of `dropped`: the files that pass `accept`, or, when more
of them pass than `maxFiles` allows, the empty list (every file is then
rejected as one too many). -/
def dropzoneAccepted (maxFiles : Nat) (dropped : List DroppedFile) : List DroppedFile :=
  if 1 ≤ maxFiles ∧ maxFiles < (dropped.filter dropzoneAccepts).length then []
  else dropped.filter dropzoneAccepts

/-- A drop on the upload form: the dropzone configured on lines 102-106 of
upload.js (`onDrop`, `accept`, `maxFiles: 1`) calls `onDrop` with the list it
accepted. -/
def dropFiles (dropped : List DroppedFile) (st : UploadState) : UploadState :=
  onDrop (dropzoneAccepted 1 dropped) st

/-- What follows the first occurrence of `sep` in a text, if it occurs. -/
def dropThrough (sep : List Char) : List Char → Option (List Char)
  | [] => none
  | c :: cs =>
    if sep.isPrefixOf (c :: cs) then some ((c :: cs).drop sep.length)
    else dropThrough sep cs

/-- What precedes the first occurrence of `sep` in a text (all of it if none). -/
def takeBefore (sep : List Char) : List Char → List Char
  | [] => []
  | c :: cs => if sep.isPrefixOf (c :: cs) then [] else c :: takeBefore sep cs

/-- The second piece of `result.split(sep)` for a non-empty `sep`:
`undefined` when `sep` does not occur in `result`. -/
def splitSecond (result sep : String) : Option String :=
  (dropThrough sep.toList result.toList).map fun r => String.mk (takeBefore sep.toList r)

/-- The callback `reader.onload` (upload.js, 78-84) for the read of `file`. -/
def readerOnload (file : DroppedFile) (result : String) (st : UploadState) : UploadState :=
  { st.emit (.consoleLog ("[DEBUG] upload complete: " ++ result.take 64 ++ "...")) with
    torrentFile := some { name := file.name, b64 := splitSecond result "base64," } }

/-- The callback `reader.onerror` (upload.js, 85-88). -/
def readerOnerror (errorText errorMessage : String) (st : UploadState) : UploadState :=
  { st.emit (.consoleLog ("[DEBUG] upload error: " ++ errorText)) with
    dropError := errorMessage }

/-- The value passed to `setSources` by the effect on `category`
(upload.js, 62-70).  `find` yields the first key whose slug is `category`;
indexing by `undefined` reads the property named "undefined". -/
def sourcesFor (slug : String → String) (C : Catalog) (category : String) :
    Option (List String) :=
  if category ≠ "" then
    C.get (render (C.keys.find? fun cat => slug cat == category))
  else
    some []

/-- The effect on `category` (upload.js, 61-71). -/
def sourcesEffect (slug : String → String) (C : Catalog) (st : UploadState) : UploadState :=
  { st with sources := sourcesFor slug C st.category }

/-- The `onChange` of the category select (upload.js, 197-199) followed by the
effect it triggers. -/
def onCategoryChange (slug : String → String) (C : Catalog) (value : String)
    (st : UploadState) : UploadState :=
  sourcesEffect slug C { st with category := value }

/-- White space among the ASCII characters, as `\s` and `trim()` see it:
space, tab, line feed, vertical tab, form feed and carriage return. -/
def asciiWhitespace (c : Char) : Bool :=
  c.toNat == 32 || c.toNat == 9 || c.toNat == 10 || c.toNat == 11 || c.toNat == 12 ||
    c.toNat == 13

/-- Replacement of one ASCII character by the `charmap` of the `slugify`
package; characters outside the table stand for themselves. -/
def slugifyCharMap (c : Char) : List Char :=
  if c = '$' then "dollar".toList
  else if c = '%' then "percent".toList
  else if c = '&' then "and".toList
  else if c = '<' then "less".toList
  else if c = '>' then "greater".toList
  else if c = '|' then "or".toList
  else [c]

/-- Characters kept by the default `remove` pattern of the `slugify` package:
word characters, white space and the punctuation it lists (code points 34
and 39 are the two quote characters). -/
def slugifyKeeps (c : Char) : Bool :=
  c.isAlphanum || c == '_' || asciiWhitespace c || "$*+~.()!-:@".toList.contains c ||
    c.toNat == 34 || c.toNat == 39

/-- Turn each run of white space into one `-`; the flag tells whether the
character before was white space. -/
def slugifyJoin : Bool → List Char → List Char
  | _, [] => []
  | inRun, c :: cs =>
    if asciiWhitespace c then
      if inRun then slugifyJoin true cs else '-' :: slugifyJoin true cs
    else c :: slugifyJoin false cs

/-- The call `slugify(s, { lower: true })` of the external `slugify` package,
on ASCII text: map each character through the charmap (a `-` in the result
counts as a space), drop what the `remove` pattern rejects, trim, turn runs of
white space into `-`, and lower-case. -/
def slugifyLower (s : String) : String :=
  let mapped := s.toList.flatMap fun c =>
    ((slugifyCharMap c).map fun d => if d = '-' then ' ' else d).filter slugifyKeeps
  let trimmed := ((mapped.dropWhile asciiWhitespace).reverse.dropWhile asciiWhitespace).reverse
  String.mk ((slugifyJoin false trimmed).map Char.toLower)

/-! ## announcements/[slug]/edit.js -/

/-- The announcement object read from the backend; a missing field is `undefined`. -/
structure Announcement where
  _id : Option String
  title : Option String
  body : Option String
  pinned : Option Bool
  deriving DecidableEq, Repr

/-- Props of `EditAnnouncement`; `none` is an absent (or `null`) prop. -/
structure EditProps where
  announcement : Option Announcement
  token : Option String
  userRole : Option String
  deriving DecidableEq, Repr

/-- The empty props object of edit.js, line 101. -/
def EditProps.empty : EditProps :=
  { announcement := none, token := none, userRole := none }

/-- What `EditAnnouncement` renders: the bare text element, or the form with
the default values of its three fields. -/
inductive EditView where
  | text (content : String)
  | form (title body : Option String) (pinned : Option Bool)
  deriving DecidableEq, Repr

/-- The render of `EditAnnouncement` (edit.js, 13-16 and 62-96).  Reading a
field of an absent announcement raises. -/
def EditAnnouncement (props : EditProps) : Except String EditView :=
  if props.userRole ≠ some "admin" then
    .ok (.text "You do not have permission to do that.")
  else
    match props.announcement with
    | none => .error "announcement is undefined"
    | some a => .ok (.form a.title a.body a.pinned)

/-- The `catch` block of `handleCreate` (edit.js, 56-59). -/
def handleCreateCatch (message : String) (log : List Effect) : List Effect :=
  log ++ [.addNotification "error" ("Could not update announcement: " ++ message),
    .consoleError message]

/-- The request built by `handleCreate` (edit.js, 31-45). -/
def editRequest (cfg : Config) (props : EditProps) (form : FormData)
    (a : Announcement) : Request :=
  { url := cfg.SQ_API_URL ++ "/announcements/edit/" ++ render a._id
    method := "POST"
    contentType := "application/json"
    authorization := "Bearer " ++ render props.token
    body := .edit
      { title := form "title"
        body := form "body"
        pinned := truthy (form "pinned") } }

/-- The part of `handleCreate` that runs inside the submit event
(edit.js, 27-45): up to the `await` on `fetch`.  The flag tells whether a
network call is now in flight. -/
def handleCreateDispatch (cfg : Config) (props : EditProps) (form : FormData)
    (log : List Effect) : List Effect × Bool :=
  let log1 := log ++ [.preventDefault]
  match props.announcement with
  | none => (handleCreateCatch "announcement is undefined" log1, false)
  | some a => (log1 ++ [.fetch (editRequest cfg props form a)], true)

/-- The part of `handleCreate` that runs once the awaited `fetch` has settled
(edit.js, 47-59). -/
def handleCreateSettle (net : FetchOutcome) (log : List Effect) : List Effect :=
  match net with
  | .rejected message => handleCreateCatch message log
  | .response status text =>
    if status ≠ 200 then
      match text with
      | .ok reason => handleCreateCatch reason log
      | .error message => handleCreateCatch message log
    else
      let log2 := log ++ [.addNotification "success" "Announcement updated successfully"]
      match text with
      | .ok slug => log2 ++ [.routerPush ("/announcements/" ++ slug)]
      | .error message => handleCreateCatch message log2

/-- One whole run of `handleCreate` (edit.js, 26-60). -/
def handleCreate (cfg : Config) (props : EditProps) (form : FormData)
    (net : FetchOutcome) (log : List Effect) : List Effect :=
  let r := handleCreateDispatch cfg props form log
  if r.2 then handleCreateSettle net r.1 else r.1

/-- The payload fields of a verified token that the edit view reads. -/
structure Claims where
  role : Option String
  deriving DecidableEq, Repr

/-- How the upstream `GET` of the announcement settles: the `fetch` promise
rejects, or it resolves and `json()` yields the parsed body (`none` for a
JSON `null`) or rejects. -/
inductive GetOutcome where
  | rejected (message : String)
  | response (json : Except String (Option Announcement))

/-- What the function handed to `withAuthServerSideProps` does: the calls it
made, and the props it returns (`ok`) or the error it raises (`error`). -/
structure ServerResult where
  log : List Effect
  result : Except String EditProps

/-- The function handed to `withAuthServerSideProps` (edit.js, 100-118).
`verify` is `jwt.verify`, which returns the payload of a token that verifies
against the secret and raises otherwise; `token` is what the wrapper supplies. -/
def getServerSideProps (cfg : Config)
    (verify : String → String → Except String Claims) (net : GetOutcome)
    (token : Option String) (slug : String) : ServerResult :=
  if !truthy token then
    { log := [], result := .ok EditProps.empty }
  else
    match verify (render token) cfg.SQ_JWT_SECRET with
    | .error message => { log := [], result := .error message }
    | .ok claims =>
      let req : Request :=
        { url := cfg.SQ_API_URL ++ "/announcements/" ++ slug
          method := "GET"
          contentType := "application/json"
          authorization := "Bearer " ++ render token
          body := .none }
      match net with
      | .rejected message => { log := [.fetch req], result := .error message }
      | .response (.error message) => { log := [.fetch req], result := .error message }
      | .response (.ok announcement) =>
        { log := [.fetch req]
          result := .ok { announcement := announcement, token := token, userRole := claims.role } }

/-! ## Sample inputs -/

/-- A configuration used at concrete inputs. -/
def sampleConfig : Config :=
  { SQ_BASE_URL := "https://tracker.example"
    SQ_API_URL := "https://tracker.example/api"
    SQ_JWT_SECRET := "secret" }

/-- An encoded file used at concrete inputs. -/
def sampleFile : TorrentFile := { name := "a.torrent", b64 := some "ZDg6" }

/-- A form with no field filled in. -/
def blankForm : FormData := fun _ => none

/-- An upload form that has ingested `sampleFile` and is not busy. -/
def readyState : UploadState :=
  { torrentFile := some sampleFile
    dropError := ""
    category := "movies"
    sources := some []
    loading := false
    log := [] }

/-- An announcement used at concrete inputs. -/
def sampleAnnouncement : Announcement :=
  { _id := some "64ab", title := some "Welcome", body := some "Hello", pinned := some false }

/-- Props of an admin editing `sampleAnnouncement`. -/
def adminProps : EditProps :=
  { announcement := some sampleAnnouncement, token := some "tok", userRole := some "admin" }

/-- A stand-in for `jwt.verify` at concrete inputs: with the secret of
`sampleConfig` it accepts two tokens, one of an admin and one of a plain user,
and raises on every other token. -/
def sampleVerify (token secret : String) : Except String Claims :=
  if secret = "secret" ∧ token = "admin-token" then .ok { role := some "admin" }
  else if secret = "secret" ∧ token = "user-token" then .ok { role := some "user" }
  else .error "jwt malformed"

/-- A catalog in which two category names have the same slug. -/
def clashingCatalog : Catalog := [("TV", ["HDTV"]), ("tv", ["WEB"])]

/-! ## Submission: `handleUpload` and `handleCreate` -/

/-- C1 (as stated, refuted): on a form that has ingested a file, the first
submit leaves the busy flag true with one call to `/torrent/upload` in
flight, and a second submit in that state issues a second call. -/
theorem second_submit_while_busy_fetches_again :
    (handleUploadDispatch sampleConfig (some "tok") blankForm readyState).2 = true ∧
    (handleUploadDispatch sampleConfig (some "tok") blankForm readyState).1.loading = true ∧
    (fetchesTo (sampleConfig.SQ_API_URL ++ "/torrent/upload")
      (handleUploadDispatch sampleConfig (some "tok") blankForm readyState).1.log).length = 1 ∧
    (fetchesTo (sampleConfig.SQ_API_URL ++ "/torrent/upload")
      (handleUploadDispatch sampleConfig (some "tok") blankForm
        (handleUploadDispatch sampleConfig (some "tok") blankForm readyState).1).1.log).length
      = 2 := by
  decide

/-- C1 (amended): `handleUpload` never reads the busy flag.  In every form
state, busy or not, a submit event issues exactly one more call to
`/torrent/upload` when a file has been ingested and none when no file has
been ingested, and the calls it makes are the same whatever the busy flag. -/
theorem submit_fetch_count_ignores_busy (cfg : Config) (token : Option String)
    (form : FormData) (st : UploadState) :
    (fetchesTo (cfg.SQ_API_URL ++ "/torrent/upload")
        (handleUploadDispatch cfg token form st).1.log).length
      = (fetchesTo (cfg.SQ_API_URL ++ "/torrent/upload") st.log).length
        + (if st.torrentFile.isSome then 1 else 0) ∧
    ∀ busy : Bool,
      (handleUploadDispatch cfg token form { st with loading := busy }).1.log
        = (handleUploadDispatch cfg token form st).1.log := by
  constructor
  · cases h : st.torrentFile <;>
      simp [handleUploadDispatch, h, fetchesTo, UploadState.emit, UploadState.setLoading,
        handleUploadCatch, uploadRequest, List.filterMap_append]
  · intro busy
    cases h : st.torrentFile <;>
      simp [handleUploadDispatch, h, UploadState.emit, UploadState.setLoading,
        handleUploadCatch]

/-- C2 (the code at the failing input): when the call returns status 200 and
reading the response body then fails, `handleUpload` and `handleCreate` each
emit two notifications, a success followed by an error. -/
theorem body_failure_after_200_notifies_twice :
    notifications
        (handleUpload sampleConfig (some "tok") blankForm
          (.response 200 (.error "Failed to fetch")) readyState).log
      = [("success", "Torrent uploaded successfully"),
         ("error", "Could not upload file: Failed to fetch")] ∧
    notifications
        (handleCreate sampleConfig adminProps blankForm
          (.response 200 (.error "Failed to fetch")) [])
      = [("success", "Announcement updated successfully"),
         ("error", "Could not update announcement: Failed to fetch")] := by
  decide

/-- C3: every run of `handleUpload`, whatever the network does and whether or
not a file has been ingested, appends to the log `preventDefault`, then
`setLoading(true)`, then calls among which there is no write to the busy flag
(the `fetch`, if any, is one of them), then `setLoading(false)`; and the busy
flag is false when the handler completes. -/
theorem handleUpload_busy_bracket (cfg : Config) (token : Option String)
    (form : FormData) (net : FetchOutcome) (st : UploadState) :
    ∃ mid : List Effect,
      (handleUpload cfg token form net st).log
        = st.log ++ (Effect.preventDefault :: Effect.setLoading true ::
            (mid ++ [Effect.setLoading false])) ∧
      loadingWrites mid = [] ∧
      (handleUpload cfg token form net st).loading = false := by
  cases h : st.torrentFile with
  | none =>
    refine ⟨[.addNotification "error" ("Could not upload file: " ++ undefinedReadMessage),
      .consoleError undefinedReadMessage], ?_, rfl, ?_⟩ <;>
    simp [handleUpload, handleUploadDispatch, h, UploadState.emit, UploadState.setLoading,
      handleUploadCatch]
  | some file =>
    rcases net with message | ⟨status, text⟩
    · refine ⟨[.fetch (uploadRequest cfg token form file),
        .addNotification "error" ("Could not upload file: " ++ message),
        .consoleError message], ?_, rfl, ?_⟩ <;>
      simp [handleUpload, handleUploadDispatch, handleUploadSettle, h, UploadState.emit,
        UploadState.setLoading, handleUploadCatch]
    · by_cases hs : status = 200
      · rcases text with message | infoHash
        · refine ⟨[.fetch (uploadRequest cfg token form file),
            .addNotification "success" "Torrent uploaded successfully",
            .addNotification "error" ("Could not upload file: " ++ message),
            .consoleError message], ?_, rfl, ?_⟩ <;>
          simp [handleUpload, handleUploadDispatch, handleUploadSettle, h, hs,
            UploadState.emit, UploadState.setLoading, handleUploadCatch]
        · refine ⟨[.fetch (uploadRequest cfg token form file),
            .addNotification "success" "Torrent uploaded successfully",
            .routerPush ("/torrent/" ++ infoHash)], ?_, rfl, ?_⟩ <;>
          simp [handleUpload, handleUploadDispatch, handleUploadSettle, h, hs,
            UploadState.emit, UploadState.setLoading, handleUploadCatch]
      · rcases text with message | reason
        · refine ⟨[.fetch (uploadRequest cfg token form file),
            .addNotification "error" ("Could not upload file: " ++ message),
            .consoleError message], ?_, rfl, ?_⟩ <;>
          simp [handleUpload, handleUploadDispatch, handleUploadSettle, h, hs,
            UploadState.emit, UploadState.setLoading, handleUploadCatch]
        · refine ⟨[.fetch (uploadRequest cfg token form file),
            .addNotification "error" ("Could not upload file: " ++ reason),
            .consoleError reason], ?_, rfl, ?_⟩ <;>
          simp [handleUpload, handleUploadDispatch, handleUploadSettle, h, hs,
            UploadState.emit, UploadState.setLoading, handleUploadCatch]

/-- C4: when the edit call returns status 200 with body `s`, the calls that
`handleCreate` appends to the log hold exactly one notification, of kind
success, and exactly one navigation, to `/announcements/` followed by `s`. -/
theorem handleCreate_ok_notifies_and_navigates (cfg : Config) (a : Announcement)
    (token userRole : Option String) (form : FormData) (s : String) (log : List Effect) :
    ∃ new : List Effect,
      handleCreate cfg { announcement := some a, token := token, userRole := userRole } form
          (.response 200 (.ok s)) log = log ++ new ∧
      notifications new = [("success", "Announcement updated successfully")] ∧
      navigations new = ["/announcements/" ++ s] := by
  refine ⟨[.preventDefault,
    .fetch (editRequest cfg { announcement := some a, token := token, userRole := userRole }
      form a),
    .addNotification "success" "Announcement updated successfully",
    .routerPush ("/announcements/" ++ s)], ?_, rfl, rfl⟩
  simp [handleCreate, handleCreateDispatch, handleCreateSettle]

/-- C5: when a file has been ingested and the upload call returns a status
other than 200 with body `r`, the calls that `handleUpload` appends to the log
hold exactly one notification, of kind error, whose message ends in `r`, and
no navigation; and `torrentFile`, `category`, `sources` and `dropError` are
what they were. -/
theorem handleUpload_non200_reports_reason (cfg : Config) (token : Option String)
    (form : FormData) (st : UploadState) (file : TorrentFile) (status : Nat) (r : String)
    (hfile : st.torrentFile = some file) (hstatus : status ≠ 200) :
    ∃ new : List Effect,
      (handleUpload cfg token form (.response status (.ok r)) st).log = st.log ++ new ∧
      notifications new = [("error", "Could not upload file: " ++ r)] ∧
      navigations new = [] ∧
      (handleUpload cfg token form (.response status (.ok r)) st).torrentFile
        = st.torrentFile ∧
      (handleUpload cfg token form (.response status (.ok r)) st).category = st.category ∧
      (handleUpload cfg token form (.response status (.ok r)) st).sources = st.sources ∧
      (handleUpload cfg token form (.response status (.ok r)) st).dropError
        = st.dropError := by
  refine ⟨[.preventDefault, .setLoading true, .fetch (uploadRequest cfg token form file),
    .addNotification "error" ("Could not upload file: " ++ r), .consoleError r,
    .setLoading false], ?_, rfl, rfl, ?_, ?_, ?_, ?_⟩ <;>
  simp [handleUpload, handleUploadDispatch, handleUploadSettle, hfile, hstatus,
    UploadState.emit, UploadState.setLoading, handleUploadCatch]

/-- C5 at status 403 with body "forbidden": one error notification holding
"forbidden", no navigation, form state unchanged. -/
theorem handleUpload_non200_reports_reason_witness :
    readyState.torrentFile = some sampleFile ∧ 403 ≠ 200 ∧
    ∃ new : List Effect,
      (handleUpload sampleConfig (some "tok") blankForm (.response 403 (.ok "forbidden"))
        readyState).log = readyState.log ++ new ∧
      notifications new = [("error", "Could not upload file: " ++ "forbidden")] ∧
      navigations new = [] ∧
      (handleUpload sampleConfig (some "tok") blankForm (.response 403 (.ok "forbidden"))
        readyState).torrentFile = readyState.torrentFile ∧
      (handleUpload sampleConfig (some "tok") blankForm (.response 403 (.ok "forbidden"))
        readyState).category = readyState.category ∧
      (handleUpload sampleConfig (some "tok") blankForm (.response 403 (.ok "forbidden"))
        readyState).sources = readyState.sources ∧
      (handleUpload sampleConfig (some "tok") blankForm (.response 403 (.ok "forbidden"))
        readyState).dropError = readyState.dropError :=
  ⟨rfl, by decide,
    handleUpload_non200_reports_reason sampleConfig (some "tok") blankForm readyState
      sampleFile 403 "forbidden" rfl (by decide)⟩

/-! ## Access to the edit view -/

/-- C6 (as stated, refuted): for a caller whose verified token carries the
role `user`, `getServerSideProps` fetches the announcement upstream and
returns it in the props. -/
theorem non_admin_token_fetches_announcement :
    sampleVerify "user-token" sampleConfig.SQ_JWT_SECRET = .ok { role := some "user" } ∧
    (getServerSideProps sampleConfig sampleVerify (.response (.ok (some sampleAnnouncement)))
        (some "user-token") "welcome").log
      = [.fetch
          { url := "https://tracker.example/api/announcements/welcome"
            method := "GET"
            contentType := "application/json"
            authorization := "Bearer user-token"
            body := .none }] ∧
    (getServerSideProps sampleConfig sampleVerify (.response (.ok (some sampleAnnouncement)))
        (some "user-token") "welcome").result
      = .ok { announcement := some sampleAnnouncement, token := some "user-token",
              userRole := some "user" } := by
  refine ⟨rfl, ?_, ?_⟩ <;> simp [getServerSideProps, sampleVerify, sampleConfig, truthy, render]

/-- C6 (amended): for a caller with no token `getServerSideProps` makes no
upstream call and returns the empty props; for a caller whose verified token
carries a role other than admin it makes exactly one upstream call, for the
announcement and with the caller's own token, and when that call yields a
body it returns the body with the token and the role.  Whatever props it
returns in either case, `EditAnnouncement` renders only the
permission-denied text from them. -/
theorem non_admin_gate (cfg : Config) (verify : String → String → Except String Claims)
    (net : GetOutcome) (token : Option String) (slug : String) (claims : Claims)
    (h : truthy token = false ∨
      (truthy token = true ∧ verify (render token) cfg.SQ_JWT_SECRET = .ok claims ∧
        claims.role ≠ some "admin")) :
    (truthy token = false →
      (getServerSideProps cfg verify net token slug).log = [] ∧
      (getServerSideProps cfg verify net token slug).result = .ok EditProps.empty) ∧
    (truthy token = true →
      (getServerSideProps cfg verify net token slug).log
        = [.fetch
            { url := cfg.SQ_API_URL ++ "/announcements/" ++ slug
              method := "GET"
              contentType := "application/json"
              authorization := "Bearer " ++ render token
              body := .none }] ∧
      ∀ a, net = .response (.ok a) →
        (getServerSideProps cfg verify net token slug).result
          = .ok { announcement := a, token := token, userRole := claims.role }) ∧
    ∀ props, (getServerSideProps cfg verify net token slug).result = .ok props →
      EditAnnouncement props = .ok (.text "You do not have permission to do that.") := by
  rcases h with h | ⟨h, hv, hr⟩
  · refine ⟨fun _ => ?_, fun h2 => ?_, fun props hp => ?_⟩
    · simp [getServerSideProps, h]
    · simp [h] at h2
    · simp [getServerSideProps, h] at hp
      subst hp
      simp [EditAnnouncement, EditProps.empty]
  · refine ⟨fun h2 => ?_, fun _ => ⟨?_, fun a ha => ?_⟩, fun props hp => ?_⟩
    · simp [h] at h2
    · rcases net with message | ⟨message | a⟩ <;> simp [getServerSideProps, h, hv]
    · subst ha
      simp [getServerSideProps, h, hv]
    · rcases net with message | ⟨message | a⟩ <;> simp [getServerSideProps, h, hv] at hp
      subst hp
      simp [EditAnnouncement, hr]

/-- C6 (amended) at the token of a plain user. -/
theorem non_admin_gate_witness :
    (truthy (some "user-token") = false ∨
      (truthy (some "user-token") = true ∧
        sampleVerify (render (some "user-token")) sampleConfig.SQ_JWT_SECRET
          = .ok { role := some "user" } ∧
        (some "user" : Option String) ≠ some "admin")) ∧
    ((getServerSideProps sampleConfig sampleVerify (.response (.ok (some sampleAnnouncement)))
        (some "user-token") "welcome").log.length = 1) ∧
    ∀ props,
      (getServerSideProps sampleConfig sampleVerify (.response (.ok (some sampleAnnouncement)))
        (some "user-token") "welcome").result = .ok props →
      EditAnnouncement props = .ok (.text "You do not have permission to do that.") :=
  have hyp : truthy (some "user-token") = false ∨
      (truthy (some "user-token") = true ∧
        sampleVerify (render (some "user-token")) sampleConfig.SQ_JWT_SECRET
          = .ok { role := some "user" } ∧
        (some "user" : Option String) ≠ some "admin") :=
    Or.inr ⟨by decide, rfl, by decide⟩
  have main := non_admin_gate sampleConfig sampleVerify
    (.response (.ok (some sampleAnnouncement))) (some "user-token") "welcome"
    { role := some "user" } hyp
  ⟨hyp, by rw [(main.2.1 (by decide)).1]; rfl, main.2.2⟩

/-- C7 (the code at the failing input): for a non-empty token that
`jwt.verify` rejects, the function handed to `withAuthServerSideProps` makes
no call and raises the verification error instead of returning props. -/
theorem unverifiable_token_raises :
    sampleVerify "not-a-jwt" sampleConfig.SQ_JWT_SECRET = .error "jwt malformed" ∧
    (getServerSideProps sampleConfig sampleVerify (.response (.ok (some sampleAnnouncement)))
        (some "not-a-jwt") "welcome").log = [] ∧
    (getServerSideProps sampleConfig sampleVerify (.response (.ok (some sampleAnnouncement)))
        (some "not-a-jwt") "welcome").result = .error "jwt malformed" := by
  refine ⟨rfl, ?_, ?_⟩ <;> simp [getServerSideProps, sampleVerify, sampleConfig, truthy, render]

/-! ## Category and sources -/

/-- In a list of keys, `find` on the slug of a key `k` that no earlier key
shares yields `k` itself. -/
theorem find_first_slug (slug : String → String) (k : String) :
    ∀ keys : List String, k ∈ keys →
      (∀ k2 ∈ keys.takeWhile (fun c => c != k), slug k2 ≠ slug k) →
      keys.find? (fun cat => slug cat == slug k) = some k := by
  intro keys
  induction keys with
  | nil => intro hk; simp at hk
  | cons c cs ih =>
    intro hk hfirst
    by_cases hc : c = k
    · subst hc
      simp
    · have hne : slug c ≠ slug k := by
        apply hfirst
        simp [List.takeWhile_cons, hc]
      have hk2 : k ∈ cs := by
        rcases List.mem_cons.mp hk with h | h
        · exact absurd h.symm hc
        · exact h
      have hfirst2 : ∀ k2 ∈ cs.takeWhile (fun c => c != k), slug k2 ≠ slug k := by
        intro k2 hk2m
        apply hfirst
        simp [List.takeWhile_cons, hc, hk2m]
      simp [List.find?_cons, hne, ih hk2 hfirst2]

/-- A key of the catalog has an entry. -/
theorem get_isSome_of_mem_keys (k : String) :
    ∀ C : Catalog, k ∈ C.keys → (C.get k).isSome = true := by
  intro C
  induction C with
  | nil => intro hk; simp [Catalog.keys] at hk
  | cons p ps ih =>
    intro hk
    by_cases hp : k = p.1
    · simp [Catalog.get, List.lookup, hp]
    · have hk2 : k ∈ Catalog.keys ps := by
        simpa [Catalog.keys, hp] using hk
      have hbeq : (k == p.1) = false := by simpa using hp
      have := ih hk2
      simpa [Catalog.get, List.lookup, hbeq] using this

/-- C8 (as stated, refuted): in a catalog whose keys `TV` and `tv` have the
same slug, changing the category to the slug of `tv` sets the sources to the
entry of `TV`, not to the entry of `tv`. -/
theorem clashing_slug_selects_first_entry :
    "tv" ∈ clashingCatalog.keys ∧
    slugifyLower "TV" = slugifyLower "tv" ∧
    (onCategoryChange slugifyLower clashingCatalog (slugifyLower "tv") readyState).sources
      = some ["HDTV"] ∧
    clashingCatalog.get "tv" = some ["WEB"] := by
  decide

/-- C8 (amended): for every catalog `C` and every key `k` of `C` whose slug is
not empty and is not the slug of a key listed before `k`, after the category
is changed to the slug of `k` the recomputed sources are the entry `C[k]`
(which exists; the empty sequence when the entry is empty). -/
theorem sources_follow_first_slug_match (slug : String → String) (C : Catalog)
    (k : String) (st : UploadState) (hk : k ∈ C.keys) (hne : slug k ≠ "")
    (hfirst : ∀ k2 ∈ C.keys.takeWhile (fun c => c != k), slug k2 ≠ slug k) :
    (onCategoryChange slug C (slug k) st).sources = C.get k ∧
    (C.get k).isSome = true := by
  refine ⟨?_, get_isSome_of_mem_keys k C hk⟩
  simp [onCategoryChange, sourcesEffect, sourcesFor, hne, find_first_slug slug k C.keys hk hfirst,
    render]

/-- C8 (amended) at the first key of a catalog with clashing slugs. -/
theorem sources_follow_first_slug_match_witness :
    "TV" ∈ clashingCatalog.keys ∧ slugifyLower "TV" ≠ "" ∧
    (onCategoryChange slugifyLower clashingCatalog (slugifyLower "TV") readyState).sources
      = clashingCatalog.get "TV" ∧
    (clashingCatalog.get "TV").isSome = true :=
  ⟨by decide, by decide,
    sources_follow_first_slug_match slugifyLower clashingCatalog "TV" readyState (by decide)
      (by decide) (by decide)⟩

/-! ## File ingestion -/

/-- The dropzone of the upload form never hands `onDrop` more than one file. -/
theorem dropzoneAccepted_length_le_one (dropped : List DroppedFile) :
    (dropzoneAccepted 1 dropped).length ≤ 1 := by
  unfold dropzoneAccepted
  split
  · simp
  · rename_i h
    simp only [Nat.le_refl, true_and, Nat.not_lt] at h
    exact h

/-- A drop in which more than one file passes the filter reaches `onDrop` as
the empty list. -/
theorem dropzoneAccepted_of_many (dropped : List DroppedFile)
    (h : 1 < (dropped.filter dropzoneAccepts).length) : dropzoneAccepted 1 dropped = [] := by
  simp [dropzoneAccepted, h]

/-- C9: for every drop on the upload form for which the list handed to
`onDrop` has length 0 or more than 1, and for every drop in which more than
one file passes the filter, the pipeline ends in the failed state:
`dropError` is the non-empty message "Must be a .torrent file" and no file
read is started. -/
theorem drop_none_or_many_fails (dropped : List DroppedFile) (st : UploadState)
    (h : (dropzoneAccepted 1 dropped).length = 0 ∨ 1 < (dropzoneAccepted 1 dropped).length ∨
      1 < (dropped.filter dropzoneAccepts).length) :
    (dropFiles dropped st).dropError = "Must be a .torrent file" ∧
    (dropFiles dropped st).dropError ≠ "" ∧
    (dropFiles dropped st).log = st.log := by
  have hnil : dropzoneAccepted 1 dropped = [] := by
    rcases h with h | h | h
    · exact List.length_eq_zero.mp h
    · have := dropzoneAccepted_length_le_one dropped
      omega
    · exact dropzoneAccepted_of_many dropped h
  simp [dropFiles, hnil, onDrop]

/-- C9 at a drop of two torrent files: both pass the filter, `onDrop` is
handed the empty list, and the drop fails with the validation message. -/
theorem drop_none_or_many_fails_witness :
    (1 < ([{ name := "a.torrent" }, { name := "b.torrent" }].filter dropzoneAccepts).length) ∧
    (dropFiles [{ name := "a.torrent" }, { name := "b.torrent" }] readyState).dropError
      = "Must be a .torrent file" ∧
    (dropFiles [{ name := "a.torrent" }, { name := "b.torrent" }] readyState).dropError ≠ "" ∧
    (dropFiles [{ name := "a.torrent" }, { name := "b.torrent" }] readyState).log
      = readyState.log :=
  ⟨by decide,
    drop_none_or_many_fails [{ name := "a.torrent" }, { name := "b.torrent" }] readyState
      (Or.inr (Or.inr (by decide)))⟩

/-- C10 (as stated, refuted): on a form holding `sampleFile`, right after a
drop that is accepted and right after a drop that is rejected, `torrentFile`
still holds `sampleFile`, and a submit made then sends its payload. -/
theorem drop_keeps_previous_file :
    (onDrop [{ name := "b.torrent" }] readyState).torrentFile = some sampleFile ∧
    (onDrop [] readyState).torrentFile = some sampleFile ∧
    (fetchesTo (sampleConfig.SQ_API_URL ++ "/torrent/upload")
        (handleUploadDispatch sampleConfig (some "tok") blankForm
          (onDrop [{ name := "b.torrent" }] readyState)).1.log).map Request.body
      = [.upload
          { name := none, description := none, type := none, source := none,
            anonymous := false, torrent := sampleFile.b64, tags := none }] := by
  decide

/-- C10 (amended): `onDrop` never writes `torrentFile`.  Right after it
returns, for an accepted and for a rejected drop alike, `torrentFile` holds
what it held before, and a submit made then sends the previous payload; the
previous file is replaced when the read of a new file completes, by
`reader.onload`. -/
theorem onDrop_keeps_torrentFile (cfg : Config) (token : Option String) (form : FormData)
    (files : List DroppedFile) (st : UploadState) (previous : TorrentFile)
    (new : DroppedFile) (result : String) (h : st.torrentFile = some previous) :
    (onDrop files st).torrentFile = some previous ∧
    (handleUploadDispatch cfg token form (onDrop files st)).1.log
      = (onDrop files st).log ++
        [.preventDefault, .setLoading true, .fetch (uploadRequest cfg token form previous)] ∧
    (readerOnload new result (onDrop files st)).torrentFile
      = some { name := new.name, b64 := splitSecond result "base64," } := by
  have keep : (onDrop files st).torrentFile = some previous := by
    unfold onDrop
    cases files.head? <;> simp [UploadState.emit, h]
  refine ⟨keep, ?_, ?_⟩
  · simp [handleUploadDispatch, keep, UploadState.emit, UploadState.setLoading]
  · simp [readerOnload, UploadState.emit]

/-- C10 (amended) on a form holding `sampleFile`, at the drop of another file. -/
theorem onDrop_keeps_torrentFile_witness :
    readyState.torrentFile = some sampleFile ∧
    (onDrop [{ name := "b.torrent" }] readyState).torrentFile = some sampleFile ∧
    (readerOnload { name := "b.torrent" } "data:application/x-bittorrent;base64,ZTg6"
        (onDrop [{ name := "b.torrent" }] readyState)).torrentFile
      = some { name := "b.torrent",
               b64 := splitSecond "data:application/x-bittorrent;base64,ZTg6" "base64," } :=
  have main := onDrop_keeps_torrentFile sampleConfig (some "tok") blankForm
    [{ name := "b.torrent" }] readyState sampleFile { name := "b.torrent" }
    "data:application/x-bittorrent;base64,ZTg6" rfl
  ⟨rfl, main.1, main.2.2⟩

end SqTracker
